import Mathlib

/-!
Verification of the restaurant-menu model (`app1.py`, `modelos/cardapio/sobremesa.py`).

Python objects are shallowly embedded as finite attribute maps from attribute
names to values; numeric values are rationals (the discount rates 0.10 and 0.15
and all prices in the program are decimal literals, represented exactly).
Mutating methods are embedded as state-passing functions; attribute lookup
failure (Python `AttributeError`) is `Option.none`.
-/

/-- A Python attribute value: a string or a number (prices, rates). -/
inductive PyVal where
  | str (s : String)
  | num (q : ℚ)
deriving DecidableEq

/-- The attribute dictionary of a Python object: insertion-ordered map from
attribute name to value, each key occurring at most once. -/
abbrev Attrs := List (String × PyVal)

/-- `setattr a k v`: Python attribute assignment `self.k = v` — overwrite the
existing binding of `k` if present, else append a new one. -/
def setattr : Attrs → String → PyVal → Attrs
  | [], k, v => [(k, v)]
  | (k0, v0) :: rest, k, v =>
      if k0 = k then (k, v) :: rest else (k0, v0) :: setattr rest k v

/-- `getattr a k`: Python attribute read `self.k`; `none` is `AttributeError`. -/
def getattr : Attrs → String → Option PyVal
  | [], _ => none
  | (k0, v0) :: rest, k => if k0 = k then some v0 else getattr rest k

/-- How a value renders inside a Python f-string. -/
def PyVal.fmt : PyVal → String
  | PyVal.str s => s
  | PyVal.num q => toString q

/-- A Python object: its class name and its attribute dictionary. -/
structure Item where
  cls : String
  attrs : Attrs
deriving DecidableEq

/-- Modelled from the spec: the base class `ItemCardapio`
(`modelos/cardapio/item_cardapio.py`) is imported by `sobremesa.py` but is not
under `src/`. Per spec §3 the base stores the name and the price; the attribute
names `_nome` and `_preco` are fixed by `Sobremesa.aplicar_desconto` in `src/`,
which reads and writes `self._preco`. -/
def ItemBase.init (nome : String) (preco : ℚ) : Attrs :=
  setattr (setattr [] "_nome" (PyVal.str nome)) "_preco" (PyVal.num preco)

/-- The shared shape of every variant's `aplicar_desconto` body:
`self._preco -= self._preco * rate` (read `_preco`, write it back reduced). -/
def discountStep (rate : ℚ) (it : Item) : Option Item :=
  match getattr it.attrs "_preco" with
  | some (PyVal.num p) =>
      some { it with attrs := setattr it.attrs "_preco" (PyVal.num (p - p * rate)) }
  | _ => none

/-- `Sobremesa.__init__` (src/modelos/cardapio/sobremesa.py, lines 4-8):
calls the base constructor with `nome`, `preco` unchanged, then assigns
`self.tipo`, `self.tamanho`, `self.descricao` — note: WITHOUT a leading
underscore, exactly as in the source. -/
def Sobremesa.init (nome : String) (preco : ℚ) (tipo tamanho descricao : String) : Item :=
  { cls := "Sobremesa",
    attrs :=
      setattr
        (setattr
          (setattr (ItemBase.init nome preco) "tipo" (PyVal.str tipo))
          "tamanho" (PyVal.str tamanho))
        "descricao" (PyVal.str descricao) }

/-- `Sobremesa.__str__` (sobremesa.py, lines 10-11): the f-string
`f"Tipo: {self._tipo} | Tamanho: {self._tamanho} | descricao: {self._descricao}"`.
It reads the UNDERSCORED attributes `_tipo`, `_tamanho`, `_descricao`;
a missing attribute raises `AttributeError`, embedded as `none`. -/
def Sobremesa.str (it : Item) : Option String :=
  match getattr it.attrs "_tipo", getattr it.attrs "_tamanho", getattr it.attrs "_descricao" with
  | some t, some tam, some d =>
      some ("Tipo: " ++ PyVal.fmt t ++ " | Tamanho: " ++ PyVal.fmt tam
              ++ " | descricao: " ++ PyVal.fmt d)
  | _, _, _ => none

/-- `Sobremesa.aplicar_desconto` (sobremesa.py, lines 13-14):
`self._preco -= (self._preco * 0.15)`. -/
def Sobremesa.aplicar_desconto (it : Item) : Option Item :=
  discountStep (15/100) it

/-- Modelled from the spec: the class `Bebida` (`modelos/cardapio/bebida.py`)
is not under `src/`. Per spec §4.2 its constructor takes name, price and a
free-form size string. -/
def Bebida.init (nome : String) (preco : ℚ) (tamanho : String) : Item :=
  { cls := "Bebida",
    attrs := setattr (ItemBase.init nome preco) "tamanho" (PyVal.str tamanho) }

/-- Modelled from the spec: `Bebida.aplicar_desconto`, per spec §4.2:
`price = price - price * 0.10`. -/
def Bebida.aplicar_desconto (it : Item) : Option Item :=
  discountStep (10/100) it

/-- Modelled from the spec: the class `Prato` (`modelos/cardapio/prato.py`)
is not under `src/`. Per spec §4.3 its constructor takes name, price and a
description string. -/
def Prato.init (nome : String) (preco : ℚ) (descricao : String) : Item :=
  { cls := "Prato",
    attrs := setattr (ItemBase.init nome preco) "descricao" (PyVal.str descricao) }

/-- Modelled from the spec: `Prato.aplicar_desconto`. Spec §4.3 and §9 leave
the rate unconfirmed (presumed 10%, an open question); no claim below depends
on this rate. -/
def Prato.aplicar_desconto (it : Item) : Option Item :=
  discountStep (10/100) it

/-- Modelled from the spec: `Bebida`'s describe renders name, price, size
(spec §4.2); the exact format is unspecified. -/
def Bebida.str (it : Item) : Option String :=
  match getattr it.attrs "_nome", getattr it.attrs "_preco", getattr it.attrs "tamanho" with
  | some n, some p, some tam =>
      some (PyVal.fmt n ++ " | " ++ PyVal.fmt p ++ " | " ++ PyVal.fmt tam)
  | _, _, _ => none

/-- Modelled from the spec: `Prato`'s describe renders name, price,
description (spec §4.3); the exact format is unspecified. -/
def Prato.str (it : Item) : Option String :=
  match getattr it.attrs "_nome", getattr it.attrs "_preco", getattr it.attrs "descricao" with
  | some n, some p, some d =>
      some (PyVal.fmt n ++ " | " ++ PyVal.fmt p ++ " | " ++ PyVal.fmt d)
  | _, _, _ => none

/-- Dynamic dispatch of `str(item)` on the item's class. -/
def Item.describe (it : Item) : Option String :=
  if it.cls = "Sobremesa" then Sobremesa.str it
  else if it.cls = "Bebida" then Bebida.str it
  else Prato.str it

/-- Modelled from the spec: the class `Restaurante` (`modelos/restaurante.py`)
is not under `src/`. Per spec §3/§4.5 it holds a location, a category, and an
insertion-ordered menu of items. -/
structure Restaurante where
  location : String
  category : String
  menu : List Item
deriving DecidableEq

/-- Modelled from the spec: the `Restaurante` constructor; the menu starts
empty (spec §3 lifecycle). -/
def Restaurante.init (location category : String) : Restaurante :=
  { location := location, category := category, menu := [] }

/-- Modelled from the spec: `Restaurante.adicionar_no_cardapio` (spec §4.5,
`add_to_menu`): appends the item to the ordered menu, no duplicate check. -/
def Restaurante.adicionar_no_cardapio_ (r : Restaurante) (it : Item) : Restaurante :=
  { r with menu := r.menu ++ [it] }

/-- Modelled from the spec: `Restaurante.exibir_cardapio` (spec §4.5,
`display_menu`): when CALLED, prints every item's description in insertion
order; a describe that raises aborts the call (`none`). -/
def Restaurante.exibir_cardapio_ (r : Restaurante) : Option (List String) :=
  r.menu.mapM Item.describe

/-- The price currently stored in an item, when the item exists and the
attribute `_preco` holds a number. -/
def priceOf (oi : Option Item) : Option ℚ :=
  match oi with
  | none => none
  | some it =>
      match getattr it.attrs "_preco" with
      | some (PyVal.num p) => some p
      | _ => none

/-- `k` successive calls of a fallible mutating method. -/
def applyN (f : Item → Option Item) : Nat → Item → Option Item
  | 0, it => some it
  | Nat.succ k, it => (f it).bind (applyN f k)

/-- app1.py line 6: `restaurante_praca = Restaurante('praça', 'Gourmet')`. -/
def restaurante_praca0 : Restaurante := Restaurante.init "praça" "Gourmet"

/-- app1.py line 8: `bebida_suco = Bebida('Suco de Melancia', 5.0, 'grande')`. -/
def bebida_suco0 : Item := Bebida.init "Suco de Melancia" 5 "grande"

/-- app1.py line 9: `bebida_suco.aplicar_desconto()`. -/
def bebida_suco : Option Item := Bebida.aplicar_desconto bebida_suco0

/-- app1.py line 11: `prato_paozinho = Prato('Paozinho', 2.00, 'O melhor pão da cidade')`. -/
def prato_paozinho0 : Item := Prato.init "Paozinho" 2 "O melhor pão da cidade"

/-- app1.py line 12: `prato_paozinho.aplicar_desconto()`. -/
def prato_paozinho : Option Item := Prato.aplicar_desconto prato_paozinho0

/-- app1.py line 14: `sobremesa_morango = Sobremesa('Pet Gatou', 29.90, 'Doce', 'pequena', 'Chocolate belga Amarelo')`. -/
def sobremesa_morango0 : Item :=
  Sobremesa.init "Pet Gatou" (2990/100) "Doce" "pequena" "Chocolate belga Amarelo"

/-- app1.py line 15: `sobremesa_morango.aplicar_desconto()`. -/
def sobremesa_morango : Option Item := Sobremesa.aplicar_desconto sobremesa_morango0

/-- app1.py lines 17-19: the three `adicionar_no_cardapio` calls, threaded
through the success of the three discount calls above. -/
def restaurante_praca : Option Restaurante :=
  match bebida_suco, prato_paozinho, sobremesa_morango with
  | some b, some pr, some s =>
      some (Restaurante.adicionar_no_cardapio_
              (Restaurante.adicionar_no_cardapio_
                (Restaurante.adicionar_no_cardapio_ restaurante_praca0 b) pr) s)
  | _, _, _ => none

/-- A Python statement of the two shapes relevant to `main`: a bare attribute
reference `obj.meth` (expression statement, method not invoked), or an actual
method call `obj.meth()`. -/
inductive PyStmt where
  | methodRef (obj meth : String)
  | methodCall (obj meth : String)
deriving DecidableEq

/-- The body of `main` (app1.py line 22): `restaurante_praca.exibir_cardapio`
— an attribute access with NO call parentheses. -/
def main_body : PyStmt := PyStmt.methodRef "restaurante_praca" "exibir_cardapio"

/-- Lines written to stdout by executing one statement against the restaurant
state: a bare attribute reference evaluates to a bound-method object and
prints nothing; a call of `exibir_cardapio` prints the menu lines. -/
def stmtOutput (r : Restaurante) : PyStmt → List String
  | PyStmt.methodRef _ _ => []
  | PyStmt.methodCall _ m =>
      if m = "exibir_cardapio" then
        match Restaurante.exibir_cardapio_ r with
        | some lines => lines
        | none => []
      else []

/-- Stdout of `main()` (app1.py lines 21-22), given the restaurant state. -/
def main_output (r : Restaurante) : List String := stmtOutput r main_body

/-- Reading back the attribute just assigned yields the assigned value. -/
theorem getattr_setattr_self (a : Attrs) (k : String) (v : PyVal) :
    getattr (setattr a k v) k = some v := by
  induction a with
  | nil => simp [setattr, getattr]
  | cons hd t ih =>
      obtain ⟨k0, v0⟩ := hd
      by_cases hk : k0 = k
      · simp [setattr, getattr, hk]
      · simp [setattr, getattr, hk, ih]

/-- Assigning one attribute leaves every other attribute unchanged. -/
theorem getattr_setattr_ne (a : Attrs) (k j : String) (v : PyVal) (h : j ≠ k) :
    getattr (setattr a k v) j = getattr a j := by
  induction a with
  | nil =>
      simp only [setattr, getattr]
      rw [if_neg (fun hh => h (Eq.symm hh))]
  | cons hd t ih =>
      obtain ⟨k0, v0⟩ := hd
      by_cases hk : k0 = k
      · subst hk
        simp only [setattr, if_pos rfl, getattr]
        rw [if_neg (fun hh => h (Eq.symm hh)), if_neg (fun hh => h (Eq.symm hh))]
      · simp only [setattr, if_neg hk, getattr]
        by_cases hj : k0 = j
        · simp [hj]
        · simp [hj, ih]

/-- An item whose stored price is 0 still has price 0 after any number of
`self._preco -= self._preco * rate` steps. -/
theorem applyN_discount_zero (rate : ℚ) (k : Nat) (it : Item)
    (h : getattr it.attrs "_preco" = some (PyVal.num 0)) :
    priceOf (applyN (discountStep rate) k it) = some 0 := by
  induction k generalizing it with
  | zero => simp [applyN, priceOf, h]
  | succ k ih =>
      have hstep : discountStep rate it
          = some { it with attrs := setattr it.attrs "_preco" (PyVal.num (0 - 0 * rate)) } := by
        simp [discountStep, h]
      rw [applyN, hstep]
      rw [Option.some_bind]
      apply ih
      rw [getattr_setattr_self]
      norm_num

/-- Folding `adicionar_no_cardapio` over a list appends the list to the menu. -/
theorem menu_foldl (items : List Item) (r : Restaurante) :
    (items.foldl Restaurante.adicionar_no_cardapio_ r).menu = r.menu ++ items := by
  induction items generalizing r with
  | nil => simp
  | cons a t ih => simp [List.foldl, Restaurante.adicionar_no_cardapio_, ih]

/-- Claim C1: one `aplicar_desconto` on any `Sobremesa` multiplies the stored
price by 0.85; in particular the dessert built in app1.py with price 29.90 has
price 25.415 after its single discount. -/
theorem sobremesa_discount_c1 :
    (∀ (n : String) (p : ℚ) (t tam d : String),
       priceOf (Sobremesa.aplicar_desconto (Sobremesa.init n p t tam d))
         = some (p * (85/100)))
    ∧ priceOf sobremesa_morango = some (25415/1000) := by
  constructor
  · intro n p t tam d
    have h : priceOf (Sobremesa.aplicar_desconto (Sobremesa.init n p t tam d))
        = some (p - p * (15/100)) := rfl
    rw [h]; congr 1; ring
  · have h : priceOf sobremesa_morango = some (2990/100 - 2990/100 * (15/100)) := rfl
    rw [h]; norm_num

/-- Claim C2: one `aplicar_desconto` on any `Bebida` multiplies the stored
price by 0.90; in particular the drink built in app1.py with price 5.0 and
size "grande" has price 4.5 after its single discount. -/
theorem bebida_discount_c2 :
    (∀ (n : String) (p : ℚ) (tam : String),
       priceOf (Bebida.aplicar_desconto (Bebida.init n p tam)) = some (p * (90/100)))
    ∧ priceOf bebida_suco = some (9/2) := by
  constructor
  · intro n p tam
    have h : priceOf (Bebida.aplicar_desconto (Bebida.init n p tam))
        = some (p - p * (10/100)) := rfl
    rw [h]; congr 1; ring
  · have h : priceOf bebida_suco = some (5 - 5 * (10/100)) := rfl
    rw [h]; norm_num

/-- Claim C3: applying the discount twice to a `Sobremesa` compounds
geometrically — the second call succeeds unconditionally (result is `some`)
and the price is the original times 0.85 squared. -/
theorem sobremesa_double_discount_c3 :
    ∀ (n : String) (p : ℚ) (t tam d : String),
      priceOf ((Sobremesa.aplicar_desconto (Sobremesa.init n p t tam d)).bind
                 Sobremesa.aplicar_desconto)
        = some (p * (85/100)^2) := by
  intro n p t tam d
  have h : priceOf ((Sobremesa.aplicar_desconto (Sobremesa.init n p t tam d)).bind
               Sobremesa.aplicar_desconto)
      = some ((p - p * (15/100)) - (p - p * (15/100)) * (15/100)) := rfl
  rw [h]; congr 1; ring

/-- Claim C4: starting from a fresh `Restaurante`, N `adicionar_no_cardapio`
calls leave a menu that is exactly the list of added items, in order; the
app1.py restaurant ("praça", "Gourmet") ends with a 3-item menu in the order
drink, dish, dessert. -/
theorem restaurante_menu_c4 :
    (∀ (loc cat : String) (items : List Item),
       (items.foldl Restaurante.adicionar_no_cardapio_ (Restaurante.init loc cat)).menu
         = items)
    ∧ (restaurante_praca.map fun r =>
         (r.menu.length, r.menu.map Item.cls, r.location, r.category))
        = some (3, ["Bebida", "Prato", "Sobremesa"], "praça", "Gourmet") := by
  constructor
  · intro loc cat items
    rw [menu_foldl]
    rfl
  · decide

/-- Claim C5 (against the code): `Sobremesa.__str__` cannot render the type,
size and description — it reads `self._tipo`, `self._tamanho`,
`self._descricao`, but `__init__` assigned `self.tipo`, `self.tamanho`,
`self.descricao`, so on every constructed `Sobremesa` (in particular the
app1.py dessert) the lookup fails (`AttributeError`, here `none`) instead of
producing the string the spec describes. -/
theorem sobremesa_str_raises_c5 :
    (∀ (n : String) (p : ℚ) (t tam d : String),
       Sobremesa.str (Sobremesa.init n p t tam d) = none)
    ∧ Sobremesa.str sobremesa_morango0 = none :=
  ⟨fun _ _ _ _ _ => rfl, rfl⟩

/-- Claim C6: `main` in app1.py only references `exibir_cardapio` as an
attribute access without calling it, so `main` writes nothing to stdout,
whatever the restaurant state is. -/
theorem main_no_output_c6 :
    main_body = PyStmt.methodRef "restaurante_praca" "exibir_cardapio"
    ∧ ∀ r : Restaurante, main_output r = [] :=
  ⟨rfl, fun _ => rfl⟩

/-- Claim C7: an item constructed with price 0 still has price 0 after any
number k of discount applications, for each variant (dessert, drink, dish). -/
theorem zero_price_c7 :
    ∀ (k : Nat) (n t tam d : String),
      priceOf (applyN Sobremesa.aplicar_desconto k (Sobremesa.init n 0 t tam d)) = some 0
      ∧ priceOf (applyN Bebida.aplicar_desconto k (Bebida.init n 0 tam)) = some 0
      ∧ priceOf (applyN Prato.aplicar_desconto k (Prato.init n 0 d)) = some 0 := by
  intro k n t tam d
  exact ⟨applyN_discount_zero (15/100) k _ rfl,
         applyN_discount_zero (10/100) k _ rfl,
         applyN_discount_zero (10/100) k _ rfl⟩

/-- Claim C8: `Sobremesa.aplicar_desconto` only rewrites the stored price: the
call succeeds, the class is unchanged, and every attribute other than `_preco`
(in particular `_nome`, `tipo`, `tamanho`, `descricao`) reads the same after
the call as before. -/
theorem aplicar_desconto_frame_c8 :
    ∀ (n : String) (p : ℚ) (t tam d : String),
      ∃ it2, Sobremesa.aplicar_desconto (Sobremesa.init n p t tam d) = some it2 ∧
        it2.cls = (Sobremesa.init n p t tam d).cls ∧
        (∀ k, k ≠ "_preco" →
          getattr it2.attrs k = getattr (Sobremesa.init n p t tam d).attrs k) := by
  intro n p t tam d
  refine ⟨_, rfl, rfl, ?_⟩
  intro k hk
  exact getattr_setattr_ne _ _ _ _ hk

/-- Witness for claim C8: at the app1.py dessert, the discounted object still
reads `tipo = "Doce"`. -/
theorem aplicar_desconto_frame_c8_witness :
    ∃ it2, Sobremesa.aplicar_desconto sobremesa_morango0 = some it2 ∧
      getattr it2.attrs "tipo" = some (PyVal.str "Doce") := by
  obtain ⟨it2, h1, _, h3⟩ :=
    aplicar_desconto_frame_c8 "Pet Gatou" (2990/100) "Doce" "pequena" "Chocolate belga Amarelo"
  refine ⟨it2, h1, ?_⟩
  rw [h3 "tipo" (by decide)]
  rfl

/-- Claim C9: the `Sobremesa` constructor stores `tipo`, `tamanho`,
`descricao` exactly as given, and hands `nome`, `preco` unchanged to the base
constructor (which stores them as `_nome`, `_preco`). -/
theorem sobremesa_init_c9 :
    ∀ (n : String) (p : ℚ) (t tam d : String),
      getattr (Sobremesa.init n p t tam d).attrs "tipo" = some (PyVal.str t) ∧
      getattr (Sobremesa.init n p t tam d).attrs "tamanho" = some (PyVal.str tam) ∧
      getattr (Sobremesa.init n p t tam d).attrs "descricao" = some (PyVal.str d) ∧
      getattr (Sobremesa.init n p t tam d).attrs "_nome" = some (PyVal.str n) ∧
      getattr (Sobremesa.init n p t tam d).attrs "_preco" = some (PyVal.num p) :=
  fun _ _ _ _ _ => ⟨rfl, rfl, rfl, rfl, rfl⟩

/-- Claim C10: on a `Sobremesa` with nonnegative price p, `aplicar_desconto`
yields price p * 0.85, which is still nonnegative and no larger than p. -/
theorem desconto_nonneg_c10 :
    ∀ (n : String) (p : ℚ) (t tam d : String), 0 ≤ p →
      priceOf (Sobremesa.aplicar_desconto (Sobremesa.init n p t tam d))
          = some (p * (85/100))
      ∧ 0 ≤ p * (85/100) ∧ p * (85/100) ≤ p := by
  intro n p t tam d hp
  refine ⟨?_, ?_, ?_⟩
  · have h : priceOf (Sobremesa.aplicar_desconto (Sobremesa.init n p t tam d))
        = some (p - p * (15/100)) := rfl
    rw [h]; congr 1; ring
  · exact mul_nonneg hp (by norm_num)
  · nlinarith [hp]

/-- Witness for claim C10 at price 4. -/
theorem desconto_nonneg_c10_witness :
    priceOf (Sobremesa.aplicar_desconto (Sobremesa.init "x" 4 "a" "b" "c"))
        = some (4 * (85/100))
    ∧ 0 ≤ (4:ℚ) * (85/100) ∧ (4:ℚ) * (85/100) ≤ 4 :=
  desconto_nonneg_c10 "x" 4 "a" "b" "c" (by norm_num)
